import Mathlib

/-!
Verification development for the hurricane-shelters analysis pipeline
(src/analyze.py, src/util.py, src/simulate.py).

The Python code is shallowly embedded: pure data flow becomes Lean
functions; the aggregator's mutable `data` dictionary and loop-local
sets become an explicit state record threaded through folds; Python
`False`-vs-number dynamics relevant to the spec are modelled with an
explicit sum type.  Durations, coordinates and averages are modelled
with rationals (the Python floats involved in the claims are small
integers and exact decimal literals).
-/

/-- Travel modes, analyze.py iterates over ["walk", "drive", "transit"]. -/
inductive Mode : Type
  | walk
  | drive
  | transit
deriving DecidableEq, Repr

/-- A coordinate pair (longitude, latitude). -/
abbrev Coord := ℚ × ℚ

/-- A computed route for one mode: the JSON object {"duration": seconds, ...}.
Only the duration field is read by analyze.py. -/
structure Route where
  duration : ℚ
deriving DecidableEq, Repr

/-- The "routes" object of one shelter record: for each mode either a route
result or the literal `false` (modelled as `none`). -/
structure Routes where
  walk : Option Route
  drive : Option Route
  transit : Option Route
deriving DecidableEq, Repr

/-- `shelter["routes"][mode]` lookup. -/
def Routes.get (r : Routes) : Mode → Option Route
  | Mode.walk => r.walk
  | Mode.drive => r.drive
  | Mode.transit => r.transit

/-- One element of a document's "shelters" array after update_routes has
attached "coordinates": keys objectid, coordinates, routes. -/
structure Shelter where
  objectid : Nat
  coordinates : Coord
  routes : Routes
deriving DecidableEq, Repr

/-- The "blockgroup" object of a route document. -/
structure BlockGroupIn where
  geoid : String
  origin : Coord
  centroid : Coord
deriving DecidableEq, Repr

/-- One route document, as read by Analyst.analyze from the normalized
routes_<mode>_sorted.json file. -/
structure Doc where
  blockgroup : BlockGroupIn
  shelters : List Shelter
deriving DecidableEq, Repr

/-- A Python value that is either a number or the literal `False`.  The
"avg_travel" field of an output block-group record is documented in
analyze.py as "The average travel time, or False if no routes could be
made to this block group". -/
inductive PyNum : Type
  | num (q : ℚ)
  | pyFalse
deriving DecidableEq, Repr

/-- Python division of `bg_avg_travel` by a number, where `bg_avg_travel`
is either a float (`some q`) or the bool `False` (`none`).  In Python,
`False` is an int equal to 0, so `False / 60` evaluates to the float
`0.0` — the result of this division is always a number, never `False`. -/
def pyDivBy (x : Option ℚ) (d : ℚ) : PyNum :=
  match x with
  | none => PyNum.num 0
  | some q => PyNum.num (q / d)

/-! ## Route normalizer (update_routes, analyze.py lines 75-111) -/

/-- The arbitrarily large number used as the sort key for shelters without
calculated routes (analyze.py line 106: `1e10`). -/
def bigSentinel : ℚ := 10000000000

/-- The sort key of update_routes, analyze.py lines 101-107:
`shelter["routes"][mode] and shelter["routes"][mode]["duration"] or 1e10`.
Python `and`/`or` semantics: if the route is the literal `false` the key is
1e10; otherwise the key is the duration — unless the duration itself is
falsy (equal to 0), in which case `0 or 1e10` again yields 1e10. -/
def sortKey (mode : Mode) (s : Shelter) : ℚ :=
  match s.routes.get mode with
  | none => bigSentinel
  | some r => if r.duration = 0 then bigSentinel else r.duration

/-- Python's `sorted(..., key = ...)` is a stable comparison sort by the
key; it is modelled by the stable insertion sort on the key order. -/
def sortShelters (mode : Mode) (l : List Shelter) : List Shelter :=
  List.insertionSort (fun a b => sortKey mode a ≤ sortKey mode b) l

/-- update_routes looks each shelter's coordinates up by object ID in the
shelters.json metadata (find_shelter) and stores them on the record
(analyze.py line 98).  The metadata lookup is modelled as a total
function from object ID to coordinates (a missing ID is a fatal error in
the source and is out of scope of the claims). -/
def attachCoords (coordsOf : Nat → Coord) (s : Shelter) : Shelter :=
  { s with coordinates := coordsOf s.objectid }

/-- The per-document transform of update_routes (analyze.py lines 95-109):
attach coordinates to every shelter, then sort the shelter list by the
sentinel key for the given mode. -/
def update_routes_doc (coordsOf : Nat → Coord) (mode : Mode) (doc : Doc) : Doc :=
  { doc with shelters := sortShelters mode (doc.shelters.map (attachCoords coordsOf)) }

/-- Spec-side ordering relation ("sorted monotonically non-decreasing by
that mode's route duration, with shelters lacking a computed route always
placed last"): between two shelters that both have routes the durations
are non-decreasing, and no shelter with a route may follow one without. -/
def specLE (mode : Mode) (a b : Shelter) : Prop :=
  match a.routes.get mode, b.routes.get mode with
  | some ra, some rb => ra.duration ≤ rb.duration
  | some _, none => True
  | none, none => True
  | none, some _ => False

instance (mode : Mode) (a b : Shelter) : Decidable (specLE mode a b) := by
  unfold specLE
  cases a.routes.get mode <;> cases b.routes.get mode <;> simp <;> infer_instance

/-- The spec's ordering property for a whole shelter list. -/
def DurationSorted (mode : Mode) (l : List Shelter) : Prop :=
  List.Pairwise (specLE mode) l

instance (mode : Mode) (l : List Shelter) : Decidable (DurationSorted mode l) :=
  inferInstanceAs (Decidable (List.Pairwise (specLE mode) l))

/-! ## Zone-union builder (util.union_evac_zones, util.py lines 10-36) -/

/-- The very small buffer radius applied to each zone polygon
(util.py line 29: `.buffer(1e-9)`). -/
def bufferEps : ℚ := 1 / 1000000000

/-- The loop of union_evac_zones over an abstract geometry type `G`:
`shapeOfZone` models `shapely.geometry.shape(evac_zones.find_one(...))`,
`buffer` models `.buffer`, `geoUnion` models `.union`.  Alongside the
accumulator it returns the log of zone names looked up in the geometry
store, in order, one entry appended per loop iteration (each iteration
performs exactly one `find_one`). -/
def unionLoop {G : Type} (shapeOfZone : String → G) (buffer : G → ℚ → G)
    (geoUnion : G → G → G) (acc : Option G) (log : List String) :
    List String → Option G × List String
  | [] => (acc, log)
  | z :: zs =>
    let zoneShape := buffer (shapeOfZone z) bufferEps
    match acc with
    | none => unionLoop shapeOfZone buffer geoUnion (some zoneShape) (log ++ [z]) zs
    | some u =>
        unionLoop shapeOfZone buffer geoUnion (some (geoUnion u zoneShape)) (log ++ [z]) zs

/-- util.union_evac_zones: start from `evac_union = None` and fold the
buffered zone shapes together with geometric union.  Returns the final
accumulator together with the lookup log. -/
def union_evac_zones {G : Type} (shapeOfZone : String → G) (buffer : G → ℚ → G)
    (geoUnion : G → G → G) (zone_list : List String) : Option G × List String :=
  unionLoop shapeOfZone buffer geoUnion none [] zone_list

/-! ## Aggregator (Analyst.analyze, analyze.py lines 113-236) -/

/-- An exclusion polygon as used by analyze: a point-in-polygon test
(`.contains`) plus its Python truthiness (shapely geometries are falsy
when empty, which is what `if (exclude_polygon)` tests). -/
structure ExclPoly where
  contains : Coord → Bool
  truthy : Bool

/-- Python truthiness of the `exclude_polygon` variable, which is `False`
(modelled `none`) unless a zone list was given and the union builder
returned a geometry. -/
def pyTruthy (p? : Option ExclPoly) : Bool :=
  match p? with
  | none => false
  | some p => p.truthy

/-- GEOIDs skipped by the aggregator (analyze.py lines 43-46). -/
def IGNORE_GEOIDS : List String := ["250259901010", "250235001011"]

/-- ACS5_GEOID_PREFIX (analyze.py line 27). -/
def acs5GeoidPrefixStr : String := "15000US"

/-- The environment of one Analyst.analyze run: the municipal boundary
test `BOSTON_POLYGON.contains`, the census population lookup
`acs5[B01003e1][...]` (assumed total: a missing GEOID is a fatal KeyError
in the source), and util.union_evac_zones applied to a zone-name list
(returning `none` when the union is None or the polygon variable is to be
treated as absent). -/
structure Config where
  bostonContains : Coord → Bool
  pop : String → Nat
  unionZones : List String → Option ExclPoly

/-- One output block-group record (analyze.py lines 230-234), plus the
`counted_ids` instrumentation (the object IDs whose durations were
collected for this block group, in collection order). -/
structure BGOut where
  avg_travel : PyNum
  geoid : String
  population : Nat
  counted_ids : List Nat
deriving DecidableEq, Repr

/-- The mutable `data` dictionary of Analyst.analyze together with the
loop-local variables, threaded as explicit state.
Fields `shelter_pops`..`excluded_shelters` are the output dictionary
entries (the parameter echoes mode/n_closest/excluded_zones are
omitted); `not_excluded` is the local set `not_excluded_shelters`;
`travel_times` is the per-document local list.  Instrumentation fields
(not in the Python dict, they record what the run did): `doc_counted`
lists the object IDs counted for the current document, `counted` those
counted over the whole run, `tests` logs each point-in-polygon test by
the tested shelter's object ID. -/
structure RunSt where
  shelter_pops : List (String × Nat)
  shelters : List Shelter
  blockgroups : List BGOut
  bg_to_shelter_lines : List (Coord × Coord)
  excluded_shelters : List Nat
  not_excluded : List Nat
  travel_times : List ℚ
  doc_counted : List Nat
  counted : List Nat
  tests : List Nat
deriving DecidableEq, Repr

/-- Dictionary lookup in shelter_pops (keys are `str(objectid)`). -/
def lookupPop? (pops : List (String × Nat)) (k : String) : Option Nat :=
  (pops.find? (fun kv => kv.1 == k)).map (fun kv => kv.2)

/-- `data["shelter_pops"][key] += v` with insertion on a missing key
(analyze.py lines 211-215). -/
def bump (pops : List (String × Nat)) (k : String) (v : Nat) : List (String × Nat) :=
  if (pops.find? (fun kv => kv.1 == k)).isSome then
    pops.map (fun kv => if kv.1 == k then (kv.1, kv.2 + v) else kv)
  else
    pops ++ [(k, v)]

/-- Lines 187-188: `if (not shelter in data["shelters"]): append` —
membership is full record equality, so the list is deduplicated by full
record identity. -/
def recordShelter (st : RunSt) (s : Shelter) : RunSt :=
  if st.shelters.contains s then st else { st with shelters := st.shelters ++ [s] }

/-- Lines 207-220: record the duration, accumulate the block group's full
population into the shelter's total, and record the origin-destination
line.  (`counted`/`doc_counted` are instrumentation.) -/
def countShelter (st : RunSt) (s : Shelter) (r : Route) (bgPop : Nat) (origin : Coord) :
    RunSt :=
  { st with
    travel_times := st.travel_times ++ [r.duration]
    shelter_pops := bump st.shelter_pops (toString s.objectid) bgPop
    bg_to_shelter_lines := st.bg_to_shelter_lines ++ [(s.coordinates, origin)]
    doc_counted := st.doc_counted ++ [s.objectid]
    counted := st.counted ++ [s.objectid] }

/-- The `for shelter in doc["shelters"]` loop (analyze.py lines 185-223).
Control flow is mirrored exactly: every iteration first appends the
shelter to the dedup list; a shelter whose route is the literal `false`
skips the counting block but still reaches the break check; when the
exclusion polygon is truthy the memoized membership chain runs, and its
two `continue` statements skip the break check of line 222; the loop
breaks as soon as `len(travel_times) == n_closest` is observed. -/
def shelterLoop (mode : Mode) (n : Nat) (p? : Option ExclPoly) (bgPop : Nat)
    (origin : Coord) : List Shelter → RunSt → RunSt
  | [], st => st
  | s :: rest, st =>
    let st1 := recordShelter st s
    match s.routes.get mode with
    | none =>
        -- route is False: no counting, but the break check still runs
        if st1.travel_times.length = n then st1
        else shelterLoop mode n p? bgPop origin rest st1
    | some r =>
      match p? with
      | some p =>
        if p.truthy then
          if st1.excluded_shelters.contains s.objectid then
            -- `continue`: the break check is skipped
            shelterLoop mode n p? bgPop origin rest st1
          else if st1.not_excluded.contains s.objectid then
            let st2 := countShelter st1 s r bgPop origin
            if st2.travel_times.length = n then st2
            else shelterLoop mode n p? bgPop origin rest st2
          else
            let st2 := { st1 with tests := st1.tests ++ [s.objectid] }
            if p.contains s.coordinates then
              -- `continue`: the break check is skipped
              shelterLoop mode n p? bgPop origin rest
                { st2 with excluded_shelters := st2.excluded_shelters ++ [s.objectid] }
            else
              let st3 := countShelter
                { st2 with not_excluded := st2.not_excluded ++ [s.objectid] } s r bgPop origin
              if st3.travel_times.length = n then st3
              else shelterLoop mode n p? bgPop origin rest st3
        else
          let st2 := countShelter st1 s r bgPop origin
          if st2.travel_times.length = n then st2
          else shelterLoop mode n p? bgPop origin rest st2
      | none =>
        let st2 := countShelter st1 s r bgPop origin
        if st2.travel_times.length = n then st2
        else shelterLoop mode n p? bgPop origin rest st2

/-- Processing of one document (analyze.py lines 170-234): skip documents
whose GEOID is on the ignore list or whose centroid is outside the
municipal boundary; otherwise run the shelter loop with a fresh
travel_times list, then append the block-group record, whose avg_travel
is `bg_avg_travel / 60` where bg_avg_travel is the mean of the collected
durations, or the Python bool `False` when none were collected. -/
def processDoc (cfg : Config) (mode : Mode) (n : Nat) (p? : Option ExclPoly)
    (st : RunSt) (doc : Doc) : RunSt :=
  if IGNORE_GEOIDS.contains doc.blockgroup.geoid then st
  else if cfg.bostonContains doc.blockgroup.centroid then
    let bgPop := cfg.pop (acs5GeoidPrefixStr ++ doc.blockgroup.geoid)
    let st0 := { st with travel_times := [], doc_counted := [] }
    let st1 := shelterLoop mode n p? bgPop doc.blockgroup.origin doc.shelters st0
    let bgAvg : Option ℚ :=
      if 0 < st1.travel_times.length then
        some (st1.travel_times.sum / (st1.travel_times.length : ℚ))
      else none
    { st1 with blockgroups := st1.blockgroups ++
        [{ avg_travel := pyDivBy bgAvg 60
           geoid := doc.blockgroup.geoid
           population := bgPop
           counted_ids := st1.doc_counted }] }
  else st

/-- The initial `data` dictionary (analyze.py lines 131-163). -/
def initSt : RunSt :=
  { shelter_pops := [], shelters := [], blockgroups := [], bg_to_shelter_lines := []
    excluded_shelters := [], not_excluded := [], travel_times := [], doc_counted := []
    counted := [], tests := [] }

/-- The exclusion polygon resolved at the start of a run (analyze.py lines
165-167): it stays the falsy `False` unless `excluded_zones` is a list, in
which case it is the result of util.union_evac_zones (itself possibly
None, modelled by `cfg.unionZones` returning `none`). -/
def resolvePoly (cfg : Config) (excludedZones : Option (List String)) : Option ExclPoly :=
  match excludedZones with
  | none => none
  | some zs => cfg.unionZones zs

/-- Analyst.analyze: fold processDoc over the documents of the normalized
routes file.  `excludedZones = none` models passing a non-list (e.g.
None) as excluded_zones. -/
def analyze (cfg : Config) (mode : Mode) (n : Nat)
    (excludedZones : Option (List String)) (docs : List Doc) : RunSt :=
  docs.foldl (processDoc cfg mode n (resolvePoly cfg excludedZones)) initSt

/-! ## Renderer normalization (Renderer.render, analyze.py lines 350-374) -/

/-- Python `min` over a nonempty list (raises on an empty one; the empty
case is given a junk value here and is never reached in the claims). -/
def listMin : List ℚ → ℚ
  | [] => 0
  | x :: xs => xs.foldl min x

/-- Python `max` over a nonempty list. -/
def listMax : List ℚ → ℚ
  | [] => 0
  | x :: xs => xs.foldl max x

/-- Lines 351-354: `shelter_pops_values`, each population divided by 3. -/
def shelterPopsValues (pops : List (String × Nat)) : List ℚ :=
  pops.map (fun kv => (kv.2 : ℚ) / 3)

/-- Line 355: `min_pop`. -/
def minPop (st : RunSt) : ℚ := listMin (shelterPopsValues st.shelter_pops)

/-- Line 356: `max_pop`. -/
def maxPop (st : RunSt) : ℚ := listMax (shelterPopsValues st.shelter_pops)

/-- Line 357: `pop_range = max_pop - min_pop`, the divisor of the marker
size normalization. -/
def popRange (st : RunSt) : ℚ := maxPop st - minPop st

/-- Line 364: `pop_normalized = (pop - min_pop) / pop_range` — an
unguarded division by popRange. -/
def popNormalized (st : RunSt) (pop : ℚ) : ℚ := (pop - minPop st) / popRange st

/-- Lines 359-364: the division of line 364 is executed whenever some
shelter in the output shelter list has its key in shelter_pops. -/
def sizeNormReachesDivision (st : RunSt) : Bool :=
  st.shelters.any (fun s => (lookupPop? st.shelter_pops (toString s.objectid)).isSome)

/-- Lines 309-315: the average-travel list and its range (computed,
unguarded; `avg_travel` values are numbers — see pyDivBy). -/
def bgTravelValues (st : RunSt) : List ℚ :=
  st.blockgroups.map (fun b => match b.avg_travel with
    | PyNum.num q => q
    | PyNum.pyFalse => 0)

/-- Line 315: `bg_travel_range = max_bg_travel - min_bg_travel`. -/
def bgTravelRange (st : RunSt) : ℚ :=
  listMax (bgTravelValues st) - listMin (bgTravelValues st)

/-! ## Concrete inputs used by the scenario claims -/

/-- A configuration with the whole plane inside the boundary, population
100 for every block group, and no usable exclusion polygon. -/
def cfgA : Config :=
  { bostonContains := fun _ => true
    pop := fun _ => 100
    unionZones := fun _ => none }

/-- A shelter with a 120-second walk route. -/
def s120 : Shelter :=
  { objectid := 1, coordinates := (1, 1)
    routes := { walk := some { duration := 120 }, drive := none, transit := none } }

/-- A shelter with a 300-second walk route. -/
def s300 : Shelter :=
  { objectid := 2, coordinates := (2, 2)
    routes := { walk := some { duration := 300 }, drive := none, transit := none } }

/-- A shelter with no computed walk route (the literal `false`). -/
def sUnreach : Shelter :=
  { objectid := 3, coordinates := (3, 3)
    routes := { walk := none, drive := none, transit := none } }

/-- A shelter whose walk route exists but has duration exactly 0. -/
def sZeroDur : Shelter :=
  { objectid := 4, coordinates := (4, 4)
    routes := { walk := some { duration := 0 }, drive := none, transit := none } }

/-- A block group (inside the boundary, not ignored) whose only shelter
has no computed route. -/
def docC1 : Doc :=
  { blockgroup := { geoid := "bgC1", origin := (0, 0), centroid := (0, 0) }
    shelters := [sUnreach] }

/-- The aggregator run for the inaccessible-block-group input. -/
def resC1 : RunSt := analyze cfgA Mode.walk 3 none [docC1]

/-- The scenario document: one block group with shelters of walk durations
[120 s, 300 s, unreachable], in normalizer order. -/
def docC2 : Doc :=
  { blockgroup := { geoid := "bgC2", origin := (0, 0), centroid := (0, 0) }
    shelters := [s120, s300, sUnreach] }

/-- The scenario run: mode walk, N = 2, exclusion disabled, population 100. -/
def resC2 : RunSt := analyze cfgA Mode.walk 2 none [docC2]

/-- A run whose shelter_pops holds a single value, so the marker-size
normalization range is a single point. -/
def resC4 : RunSt :=
  analyze cfgA Mode.walk 1 none
    [{ blockgroup := { geoid := "bgC4", origin := (0, 0), centroid := (0, 0) }
       shelters := [s120] }]

/-- The shelters.json coordinate lookup used in normalizer examples. -/
def coordsOfW : Nat → Coord := fun oid => ((oid : ℚ), (oid : ℚ))

/-- A document whose shelter list holds a zero-duration shelter before a
120-second one. -/
def docC3 : Doc :=
  { blockgroup := { geoid := "bgC3", origin := (0, 0), centroid := (0, 0) }
    shelters := [sZeroDur, s120] }

/-- Decidable form of "every computed route duration for this mode is
strictly positive and below the 1e10 sentinel". -/
def routeDurOk (mode : Mode) (s : Shelter) : Prop :=
  match s.routes.get mode with
  | some r => 0 < r.duration ∧ r.duration < bigSentinel
  | none => True

instance (mode : Mode) (s : Shelter) : Decidable (routeDurOk mode s) := by
  unfold routeDurOk
  cases s.routes.get mode <;> infer_instance


/-! ## Derived predicates used by the invariant claims -/

/-- Whether a shelter lies in the exclusion polygon, as a property of the
shelter record itself: the polygon is active (truthy) and contains the
shelter's coordinates. -/
def shelterExcludedB (p? : Option ExclPoly) (s : Shelter) : Bool :=
  match p? with
  | some p => p.truthy && p.contains s.coordinates
  | none => false

/-- Whether a shelter is counted-eligible for a run: it has a computed
route for the mode and is not excluded. -/
def shelterValidB (mode : Mode) (p? : Option ExclPoly) (s : Shelter) : Bool :=
  (s.routes.get mode).isSome && !(shelterExcludedB p? s)

/-- The duration read by the aggregator for a shelter (only ever applied
to shelters with a computed route; 0 is a junk value for the rest). -/
def durOf (mode : Mode) (s : Shelter) : ℚ :=
  match s.routes.get mode with
  | some r => r.duration
  | none => 0

/-- Iterated shelter_pops update with one full-population bump per key. -/
def bumpList (pops : List (String × Nat)) (ks : List String) (v : Nat) :
    List (String × Nat) :=
  ks.foldl (fun ps k => bump ps k v) pops

/-- Whether a document is analyzed at all: its GEOID is not on the ignore
list and its centroid is inside the municipal boundary (analyze.py lines
171-178). -/
def analyzedB (cfg : Config) (d : Doc) : Bool :=
  !(IGNORE_GEOIDS.contains d.blockgroup.geoid) && cfg.bostonContains d.blockgroup.centroid

/-- Coordinates are a function of the object ID across a shelter pool
(true of the real data, where update_routes assigns coordinates by object
ID; needed for exclusion-by-ID memoization to be meaningful). -/
def PoolConsistent (pool : List Shelter) : Prop :=
  ∀ s1 ∈ pool, ∀ s2 ∈ pool, s1.objectid = s2.objectid → s1.coordinates = s2.coordinates

instance (pool : List Shelter) : Decidable (PoolConsistent pool) := by
  unfold PoolConsistent
  infer_instance

/-- The memoization sets agree with the geometric facts: every ID in
excluded_shelters belongs to shelters inside the polygon, every ID in
not_excluded_shelters to shelters outside it. -/
def MemoOk (p? : Option ExclPoly) (pool : List Shelter) (st : RunSt) : Prop :=
  ∀ p, p? = some p → p.truthy = true →
    (∀ x ∈ st.excluded_shelters, ∀ s ∈ pool, s.objectid = x → p.contains s.coordinates = true) ∧
    (∀ x ∈ st.not_excluded, ∀ s ∈ pool, s.objectid = x → p.contains s.coordinates = false)

/-- Invariant of the exclusion bookkeeping: the test log is duplicate
free; tested IDs land in exactly one of the two memo sets; when the
filter is active every counted ID was memoized as not excluded; when it
is inert nothing is ever excluded or tested. -/
def ExclInv (active : Bool) (st : RunSt) : Prop :=
  st.tests.Nodup ∧
  (∀ x ∈ st.tests, x ∈ st.excluded_shelters ∨ x ∈ st.not_excluded) ∧
  (∀ x ∈ st.excluded_shelters, x ∈ st.tests) ∧
  (∀ x ∈ st.not_excluded, x ∈ st.tests) ∧
  (∀ x ∈ st.excluded_shelters, x ∉ st.not_excluded) ∧
  (active = true → ∀ x ∈ st.counted, x ∈ st.not_excluded) ∧
  (active = false → st.excluded_shelters = [] ∧ st.tests = [])

/-- The shelter_pops keys contributed by one block-group record:
`str(objectid)` for each counted shelter. -/
def countedKeys (b : BGOut) : List String :=
  b.counted_ids.map (fun i => toString i)

/-- The population total the spec predicts for one shelter_pops key: each
block group contributes its full population once per counted occurrence
of the key. -/
def totalFor (key : String) (bgs : List BGOut) : Nat :=
  (bgs.map (fun b => b.population * (countedKeys b).count key)).sum

/-- Whether any analyzed block group counted this shelter_pops key. -/
def appearsIn (key : String) (bgs : List BGOut) : Bool :=
  bgs.any (fun b => (countedKeys b).contains key)

/-- A configuration whose exclusion polygon contains exactly the points
with first coordinate 1 (the coordinates of s120). -/
def cfgE : Config :=
  { bostonContains := fun _ => true
    pop := fun _ => 100
    unionZones := fun _ =>
      some { contains := fun c => c.1 == 1, truthy := true } }

/-- The run of the scenario document under cfgE with the exclusion filter
active: s120 is excluded, s300 is counted. -/
def resC5 : RunSt := analyze cfgE Mode.walk 2 (some ["ZONE A"]) [docC2]

/-! ## Helper lemmas -/

/-- The unionLoop with a non-None accumulator folds union over the
remaining buffered shapes and logs one lookup per zone name. -/
theorem unionLoop_some {G : Type} (shapeOfZone : String → G) (buffer : G → ℚ → G)
    (geoUnion : G → G → G) :
    ∀ (zs : List String) (u : G) (log : List String),
      unionLoop shapeOfZone buffer geoUnion (some u) log zs =
        (some (zs.foldl (fun acc zone => geoUnion acc (buffer (shapeOfZone zone) bufferEps)) u),
         log ++ zs) := by
  intro zs
  induction zs with
  | nil => intro u log; simp [unionLoop]
  | cons z zs ih =>
      intro u log
      simp only [unionLoop, List.foldl_cons, ih]
      simp

/-! ## Claim theorems -/

/-- C1: the claim says a block group with no valid shelter gets an
avg_travel that is explicitly absent (the Python `False` marker), and the
code's own comment (analyze.py lines 142-144) documents the same.  The
code instead computes `False / 60`, which Python evaluates to the float
`0.0`: on a concrete in-boundary block group with no reachable shelter
the output record carries the number zero, not the `False` marker. -/
theorem analyze_inaccessible_avg_is_numeric_zero :
    resC1.blockgroups =
      [{ avg_travel := PyNum.num 0, geoid := "bgC1", population := 100, counted_ids := [] }]
    ∧ PyNum.num 0 ≠ PyNum.pyFalse := by
  constructor
  · decide
  · decide

/-- C2 (counterexample): in the scenario ([120 s, 300 s, unreachable],
N = 2, population 100, exclusion disabled) the claim says the unreachable
shelter is recorded in the output shelter list.  It is not: the loop
breaks right after the second valid shelter is collected (analyze.py
lines 222-223), before the unreachable shelter is ever visited. -/
theorem scenario_unreachable_shelter_not_recorded :
    ¬ (sUnreach ∈ resC2.shelters) := by
  decide

/-- C2 (amended): in the scenario, avg_travel is 3.5 minutes
((120+300)/2/60 = 7/2), each of the two reachable shelters' populations
gains the full 100, and the unreachable shelter appears neither in the
output shelter list (the break precedes it) nor in shelter_pops. -/
theorem scenario_n2_walk_result :
    resC2.blockgroups =
      [{ avg_travel := PyNum.num (7/2), geoid := "bgC2", population := 100,
         counted_ids := [1, 2] }]
    ∧ resC2.shelter_pops = [("1", 100), ("2", 100)]
    ∧ resC2.shelters = [s120, s300]
    ∧ lookupPop? resC2.shelter_pops "3" = none := by
  refine ⟨?_, by decide, by decide, by decide⟩
  have h12 : (toString (1 : Nat) = toString (2 : Nat)) = False := by decide
  have hA : ("bgC2" = "250259901010" ∨ "bgC2" = "250235001011") = False := by simp
  norm_num [resC2, analyze, processDoc, shelterLoop, recordShelter, countShelter, bump,
    initSt, resolvePoly, cfgA, docC2, s120, s300, sUnreach, IGNORE_GEOIDS,
    acs5GeoidPrefixStr, pyDivBy, Routes.get, lookupPop?, h12, hA]

/-- C3 (counterexample): a document holding a shelter with computed walk
duration 0 followed by one with duration 120 is normalized to an order
that is not non-decreasing by duration: the zero-duration key collapses
to the 1e10 sentinel, so the zero-duration shelter is sorted after the
120-second one. -/
theorem normalizer_zero_duration_breaks_sort :
    ¬ DurationSorted Mode.walk (update_routes_doc coordsOfW Mode.walk docC3).shelters := by
  decide

/-- C3 (amended): for a document in which every computed route duration
for the mode is strictly positive and below the 1e10 sentinel, the
normalizer's output shelter list is sorted monotonically non-decreasing
by that mode's duration, and shelters lacking a computed route are always
last. -/
theorem normalizer_sorted_of_positive_durations (coordsOf : Nat → Coord) (mode : Mode)
    (doc : Doc) (h : ∀ s ∈ doc.shelters, routeDurOk mode s) :
    DurationSorted mode (update_routes_doc coordsOf mode doc).shelters := by
  haveI : IsTotal Shelter (fun a b => sortKey mode a ≤ sortKey mode b) :=
    ⟨fun a b => le_total _ _⟩
  haveI : IsTrans Shelter (fun a b => sortKey mode a ≤ sortKey mode b) :=
    ⟨fun _ _ _ hab hbc => le_trans hab hbc⟩
  have hmemL : ∀ a ∈ doc.shelters.map (attachCoords coordsOf), routeDurOk mode a := by
    intro a ha
    rcases List.mem_map.mp ha with ⟨s, hs, rfl⟩
    exact h s hs
  have hsorted :
      List.Sorted (fun a b => sortKey mode a ≤ sortKey mode b)
        (sortShelters mode (doc.shelters.map (attachCoords coordsOf))) :=
    List.sorted_insertionSort _ _
  have hmem : ∀ a ∈ sortShelters mode (doc.shelters.map (attachCoords coordsOf)),
      routeDurOk mode a := by
    intro a ha
    exact hmemL a ((List.perm_insertionSort _ _).mem_iff.mp ha)
  have main : DurationSorted mode
      (sortShelters mode (doc.shelters.map (attachCoords coordsOf))) := by
    refine List.Pairwise.imp_of_mem ?_ hsorted
    intro a b ha hb hab
    have hOkA := hmem a ha
    have hOkB := hmem b hb
    unfold specLE
    cases hra : a.routes.get mode with
    | none =>
        cases hrb : b.routes.get mode with
        | none => trivial
        | some rb =>
            exfalso
            have hka : sortKey mode a = bigSentinel := by simp [sortKey, hra]
            have hOkB' : 0 < rb.duration ∧ rb.duration < bigSentinel := by
              rw [routeDurOk, hrb] at hOkB
              exact hOkB
            have hkb : sortKey mode b = rb.duration := by
              simp [sortKey, hrb, ne_of_gt hOkB'.1]
            have hab' : sortKey mode a ≤ sortKey mode b := hab
            rw [hka, hkb] at hab'
            exact absurd hab' (not_le.mpr hOkB'.2)
    | some ra =>
        cases hrb : b.routes.get mode with
        | none => trivial
        | some rb =>
            have hOkA' : 0 < ra.duration ∧ ra.duration < bigSentinel := by
              rw [routeDurOk, hra] at hOkA
              exact hOkA
            have hOkB' : 0 < rb.duration ∧ rb.duration < bigSentinel := by
              rw [routeDurOk, hrb] at hOkB
              exact hOkB
            have hka : sortKey mode a = ra.duration := by
              simp [sortKey, hra, ne_of_gt hOkA'.1]
            have hkb : sortKey mode b = rb.duration := by
              simp [sortKey, hrb, ne_of_gt hOkB'.1]
            have hab' : sortKey mode a ≤ sortKey mode b := hab
            rw [hka, hkb] at hab'
            exact hab'
  simpa [update_routes_doc] using main

/-- C3 (witness): the amended theorem applied to the scenario document
with durations [120, 300, unreachable], whose computed durations are all
positive and below the sentinel. -/
theorem normalizer_sorted_witness :
    DurationSorted Mode.walk (update_routes_doc coordsOfW Mode.walk docC2).shelters :=
  normalizer_sorted_of_positive_durations coordsOfW Mode.walk docC2 (by decide)

/-- C4: the renderer's marker-size normalization divides by
`pop_range = max_pop - min_pop` with no guard (analyze.py lines 355-364).
On the output of an aggregator run in which all shelter population totals
are equal (here: a single counted shelter), the range is zero while the
division of line 364 is still reached for a shelter of the output list;
the computed (unused) average-travel range of line 315 is also zero. -/
theorem renderer_size_normalization_div_by_zero_reachable :
    popRange resC4 = 0 ∧ sizeNormReachesDivision resC4 = true ∧ bgTravelRange resC4 = 0 := by
  have hg : ("bgC4" = "250259901010" ∨ "bgC4" = "250235001011") = False := by simp
  refine ⟨?_, by decide, ?_⟩ <;>
    norm_num [resC4, popRange, minPop, maxPop, shelterPopsValues, listMin, listMax,
      bgTravelRange, bgTravelValues, analyze, processDoc, shelterLoop, recordShelter,
      countShelter, bump, initSt, resolvePoly, cfgA, s120, IGNORE_GEOIDS,
      acs5GeoidPrefixStr, pyDivBy, Routes.get, hg]

/-- C9: union_evac_zones returns None for an empty zone list; for a
non-empty list it returns the left-to-right geometric union of the
buffered zone shapes, and its geometry-store lookup log contains exactly
one lookup per zone name, in order. -/
theorem union_evac_zones_spec {G : Type} (shapeOfZone : String → G) (buffer : G → ℚ → G)
    (geoUnion : G → G → G) (zone_list : List String) :
    union_evac_zones shapeOfZone buffer geoUnion zone_list =
      (match zone_list with
       | [] => none
       | z :: zs =>
           some (zs.foldl (fun acc zone => geoUnion acc (buffer (shapeOfZone zone) bufferEps))
             (buffer (shapeOfZone z) bufferEps)),
       zone_list) := by
  cases zone_list with
  | nil => rfl
  | cons z zs =>
      show unionLoop shapeOfZone buffer geoUnion none [] (z :: zs) = _
      simp only [unionLoop]
      rw [unionLoop_some]
      simp

/-- C9 (witness): the theorem instantiated on a two-element zone list over
a concrete geometry type. -/
theorem union_evac_zones_spec_witness :
    union_evac_zones (fun _ => (0 : Nat)) (fun g _ => g + 1) (fun a b => a + b)
      ["ZONE A", "ZONE B"] = (some 2, ["ZONE A", "ZONE B"]) :=
  (union_evac_zones_spec (fun _ => (0 : Nat)) (fun g _ => g + 1) (fun a b => a + b)
    ["ZONE A", "ZONE B"]).trans (by decide)

/-- C10: a shelter whose route exists but has duration exactly 0 receives
the same 1e10 sentinel sort key as a shelter with no computed route
(Python: `0 or 1e10` is `1e10`), and therefore sorts after any shelter
with a positive duration below the sentinel — to the end of the list, not
the front. -/
theorem zero_duration_gets_sentinel_key (mode : Mode) (z w v : Shelter)
    (rz rw : Route) (hz : z.routes.get mode = some rz) (h0 : rz.duration = 0)
    (hw : w.routes.get mode = some rw) (hpos : 0 < rw.duration)
    (hlt : rw.duration < bigSentinel) (hv : v.routes.get mode = none) :
    sortKey mode z = bigSentinel
    ∧ sortKey mode v = sortKey mode z
    ∧ sortShelters mode [z, w] = [w, z] := by
  have hkz : sortKey mode z = bigSentinel := by simp [sortKey, hz, h0]
  have hkv : sortKey mode v = bigSentinel := by simp [sortKey, hv]
  have hkw : sortKey mode w = rw.duration := by
    simp [sortKey, hw, ne_of_gt hpos]
  refine ⟨hkz, hkv.trans hkz.symm, ?_⟩
  show List.insertionSort (fun a b => sortKey mode a ≤ sortKey mode b) [z, w] = [w, z]
  have hcond : ¬ (sortKey mode z ≤ sortKey mode w) := by
    rw [hkz, hkw]
    exact not_le.mpr hlt
  simp [List.insertionSort, List.orderedInsert, hcond]

/-- C10 (witness): the theorem applied to the concrete zero-duration,
120-second and routeless shelters. -/
theorem zero_duration_gets_sentinel_key_witness :
    sortKey Mode.walk sZeroDur = bigSentinel
    ∧ sortKey Mode.walk sUnreach = sortKey Mode.walk sZeroDur
    ∧ sortShelters Mode.walk [sZeroDur, s120] = [s120, sZeroDur] :=
  zero_duration_gets_sentinel_key Mode.walk sZeroDur s120 sUnreach
    { duration := 0 } { duration := 120 }
    (by decide) (by decide) (by decide) (by decide) (by decide) (by decide)

/-! ## Field-effect lemmas for the loop body -/

@[simp] theorem recordShelter_tests (st : RunSt) (s : Shelter) :
    (recordShelter st s).tests = st.tests := by
  unfold recordShelter; split <;> rfl

@[simp] theorem recordShelter_excluded (st : RunSt) (s : Shelter) :
    (recordShelter st s).excluded_shelters = st.excluded_shelters := by
  unfold recordShelter; split <;> rfl

@[simp] theorem recordShelter_not_excluded (st : RunSt) (s : Shelter) :
    (recordShelter st s).not_excluded = st.not_excluded := by
  unfold recordShelter; split <;> rfl

@[simp] theorem recordShelter_counted (st : RunSt) (s : Shelter) :
    (recordShelter st s).counted = st.counted := by
  unfold recordShelter; split <;> rfl

@[simp] theorem recordShelter_travel_times (st : RunSt) (s : Shelter) :
    (recordShelter st s).travel_times = st.travel_times := by
  unfold recordShelter; split <;> rfl

@[simp] theorem recordShelter_doc_counted (st : RunSt) (s : Shelter) :
    (recordShelter st s).doc_counted = st.doc_counted := by
  unfold recordShelter; split <;> rfl

@[simp] theorem recordShelter_shelter_pops (st : RunSt) (s : Shelter) :
    (recordShelter st s).shelter_pops = st.shelter_pops := by
  unfold recordShelter; split <;> rfl

@[simp] theorem recordShelter_blockgroups (st : RunSt) (s : Shelter) :
    (recordShelter st s).blockgroups = st.blockgroups := by
  unfold recordShelter; split <;> rfl

@[simp] theorem countShelter_tests (st : RunSt) (s : Shelter) (r : Route)
    (bgPop : Nat) (origin : Coord) :
    (countShelter st s r bgPop origin).tests = st.tests := rfl

@[simp] theorem countShelter_excluded (st : RunSt) (s : Shelter) (r : Route)
    (bgPop : Nat) (origin : Coord) :
    (countShelter st s r bgPop origin).excluded_shelters = st.excluded_shelters := rfl

@[simp] theorem countShelter_not_excluded (st : RunSt) (s : Shelter) (r : Route)
    (bgPop : Nat) (origin : Coord) :
    (countShelter st s r bgPop origin).not_excluded = st.not_excluded := rfl

@[simp] theorem countShelter_counted (st : RunSt) (s : Shelter) (r : Route)
    (bgPop : Nat) (origin : Coord) :
    (countShelter st s r bgPop origin).counted = st.counted ++ [s.objectid] := rfl

@[simp] theorem countShelter_travel_times (st : RunSt) (s : Shelter) (r : Route)
    (bgPop : Nat) (origin : Coord) :
    (countShelter st s r bgPop origin).travel_times = st.travel_times ++ [r.duration] := rfl

@[simp] theorem countShelter_doc_counted (st : RunSt) (s : Shelter) (r : Route)
    (bgPop : Nat) (origin : Coord) :
    (countShelter st s r bgPop origin).doc_counted = st.doc_counted ++ [s.objectid] := rfl

@[simp] theorem countShelter_shelter_pops (st : RunSt) (s : Shelter) (r : Route)
    (bgPop : Nat) (origin : Coord) :
    (countShelter st s r bgPop origin).shelter_pops =
      bump st.shelter_pops (toString s.objectid) bgPop := rfl

@[simp] theorem countShelter_blockgroups (st : RunSt) (s : Shelter) (r : Route)
    (bgPop : Nat) (origin : Coord) :
    (countShelter st s r bgPop origin).blockgroups = st.blockgroups := rfl

/-! ## Exclusion bookkeeping invariant (claim C5 machinery) -/

theorem exclInv_recordShelter (a : Bool) (st : RunSt) (s : Shelter)
    (h : ExclInv a st) : ExclInv a (recordShelter st s) := by
  unfold ExclInv at h ⊢
  simpa using h

theorem exclInv_countShelter (a : Bool) (st : RunSt) (s : Shelter) (r : Route)
    (bgPop : Nat) (origin : Coord) (h : ExclInv a st)
    (hmem : a = true → s.objectid ∈ st.not_excluded) :
    ExclInv a (countShelter st s r bgPop origin) := by
  obtain ⟨h1, h2, h3, h4, h5, h6, h7⟩ := h
  refine ⟨by simpa using h1, by simpa using h2, by simpa using h3,
    by simpa using h4, by simpa using h5, ?_, by simpa using h7⟩
  intro ha x hx
  simp only [countShelter_counted, List.mem_append, List.mem_singleton] at hx
  simp only [countShelter_not_excluded]
  rcases hx with hx | rfl
  · exact h6 ha x hx
  · exact hmem ha

theorem exclInv_test_exclude (st : RunSt) (oid : Nat) (h : ExclInv true st)
    (hx : oid ∉ st.excluded_shelters) (hnx : oid ∉ st.not_excluded) :
    ExclInv true { st with tests := st.tests ++ [oid],
                           excluded_shelters := st.excluded_shelters ++ [oid] } := by
  obtain ⟨h1, h2, h3, h4, h5, h6, h7⟩ := h
  have hoid_tests : oid ∉ st.tests := fun ht => (h2 oid ht).elim hx hnx
  refine ⟨?_, ?_, ?_, ?_, ?_, ?_, fun hfa => nomatch hfa⟩
  · simpa [List.nodup_append] using ⟨h1, hoid_tests⟩
  · intro x hxt
    simp only [List.mem_append, List.mem_singleton] at hxt ⊢
    rcases hxt with hxt | rfl
    · rcases h2 x hxt with hc | hc
      · exact Or.inl (Or.inl hc)
      · exact Or.inr hc
    · exact Or.inl (Or.inr rfl)
  · intro x hxe
    simp only [List.mem_append, List.mem_singleton] at hxe ⊢
    rcases hxe with hxe | rfl
    · exact Or.inl (h3 x hxe)
    · exact Or.inr rfl
  · intro x hxn
    simp only [List.mem_append, List.mem_singleton]
    exact Or.inl (h4 x hxn)
  · intro x hxe
    simp only [List.mem_append, List.mem_singleton] at hxe
    rcases hxe with hxe | rfl
    · exact h5 x hxe
    · exact hnx
  · intro ha x hxc
    exact h6 ha x hxc

theorem exclInv_test_not_exclude (st : RunSt) (oid : Nat) (h : ExclInv true st)
    (hx : oid ∉ st.excluded_shelters) (hnx : oid ∉ st.not_excluded) :
    ExclInv true { st with tests := st.tests ++ [oid],
                           not_excluded := st.not_excluded ++ [oid] } := by
  obtain ⟨h1, h2, h3, h4, h5, h6, h7⟩ := h
  have hoid_tests : oid ∉ st.tests := fun ht => (h2 oid ht).elim hx hnx
  refine ⟨?_, ?_, ?_, ?_, ?_, ?_, fun hfa => nomatch hfa⟩
  · simpa [List.nodup_append] using ⟨h1, hoid_tests⟩
  · intro x hxt
    simp only [List.mem_append, List.mem_singleton] at hxt ⊢
    rcases hxt with hxt | rfl
    · rcases h2 x hxt with hc | hc
      · exact Or.inl hc
      · exact Or.inr (Or.inl hc)
    · exact Or.inr (Or.inr rfl)
  · intro x hxe
    simp only [List.mem_append, List.mem_singleton]
    exact Or.inl (h3 x hxe)
  · intro x hxn
    simp only [List.mem_append, List.mem_singleton] at hxn ⊢
    rcases hxn with hxn | rfl
    · exact Or.inl (h4 x hxn)
    · exact Or.inr rfl
  · intro x hxe
    simp only [List.mem_append, List.mem_singleton, not_or]
    exact ⟨h5 x hxe, fun hc => hx (hc ▸ hxe)⟩
  · intro ha x hxc
    simp only [List.mem_append, List.mem_singleton]
    exact Or.inl (h6 ha x hxc)

theorem shelterLoop_exclInv (mode : Mode) (n : Nat) (p? : Option ExclPoly)
    (bgPop : Nat) (origin : Coord) :
    ∀ (l : List Shelter) (st : RunSt), ExclInv (pyTruthy p?) st →
      ExclInv (pyTruthy p?) (shelterLoop mode n p? bgPop origin l st) := by
  intro l
  induction l with
  | nil => intro st h; simpa [shelterLoop] using h
  | cons s rest ih =>
    intro st h
    have h1 : ExclInv (pyTruthy p?) (recordShelter st s) := exclInv_recordShelter _ _ _ h
    cases hr : s.routes.get mode with
    | none =>
        simp only [shelterLoop, hr]
        split
        · exact h1
        · exact ih _ h1
    | some r =>
        cases p? with
        | none =>
            simp only [shelterLoop, hr]
            have h2 : ExclInv (pyTruthy (none : Option ExclPoly))
                (countShelter (recordShelter st s) s r bgPop origin) :=
              exclInv_countShelter _ _ _ _ _ _ h1 (fun ha => nomatch ha)
            split
            · exact h2
            · exact ih _ h2
        | some p =>
            simp only [shelterLoop, hr]
            by_cases hpt : p.truthy = true
            · rw [if_pos hpt]
              have hact : pyTruthy (some p) = true := hpt
              rw [hact] at h1 ih ⊢
              by_cases hex : (recordShelter st s).excluded_shelters.contains s.objectid = true
              · rw [if_pos hex]
                exact ih _ h1
              · rw [if_neg hex]
                by_cases hne : (recordShelter st s).not_excluded.contains s.objectid = true
                · rw [if_pos hne]
                  have hmem : s.objectid ∈ (recordShelter st s).not_excluded :=
                    List.elem_iff.mp hne
                  have h2 : ExclInv true
                      (countShelter (recordShelter st s) s r bgPop origin) :=
                    exclInv_countShelter true _ _ _ _ _ h1 (fun _ => hmem)
                  split
                  · exact h2
                  · exact ih _ h2
                · rw [if_neg hne]
                  have hxm : s.objectid ∉ (recordShelter st s).excluded_shelters :=
                    fun hc => hex (List.elem_iff.mpr hc)
                  have hnm : s.objectid ∉ (recordShelter st s).not_excluded :=
                    fun hc => hne (List.elem_iff.mpr hc)
                  by_cases hcont : p.contains s.coordinates = true
                  · rw [if_pos hcont]
                    exact ih _ (exclInv_test_exclude (recordShelter st s) s.objectid h1 hxm hnm)
                  · rw [if_neg hcont]
                    have h2 := exclInv_test_not_exclude (recordShelter st s) s.objectid h1 hxm hnm
                    have hmem : s.objectid ∈
                        ({ recordShelter st s with
                           tests := (recordShelter st s).tests ++ [s.objectid],
                           not_excluded :=
                             (recordShelter st s).not_excluded ++ [s.objectid] } :
                          RunSt).not_excluded := by
                      simp
                    have h3 : ExclInv true
                        (countShelter
                          { recordShelter st s with
                            tests := (recordShelter st s).tests ++ [s.objectid],
                            not_excluded :=
                              (recordShelter st s).not_excluded ++ [s.objectid] }
                          s r bgPop origin) :=
                      exclInv_countShelter true _ _ _ _ _ h2 (fun _ => hmem)
                    split
                    · exact h3
                    · exact ih _ h3
            · rw [if_neg hpt]
              have hact : pyTruthy (some p) = false := by
                simp only [pyTruthy]
                exact Bool.not_eq_true _ |>.mp hpt
              rw [hact] at h1 ih ⊢
              have h2 : ExclInv false
                  (countShelter (recordShelter st s) s r bgPop origin) :=
                exclInv_countShelter false _ _ _ _ _ h1 (fun ha => nomatch ha)
              split
              · exact h2
              · exact ih _ h2

theorem processDoc_exclInv (cfg : Config) (mode : Mode) (n : Nat)
    (p? : Option ExclPoly) (st : RunSt) (doc : Doc)
    (h : ExclInv (pyTruthy p?) st) :
    ExclInv (pyTruthy p?) (processDoc cfg mode n p? st doc) := by
  unfold processDoc
  split
  · exact h
  · split
    · have h0 : ExclInv (pyTruthy p?)
          ({ st with travel_times := [], doc_counted := [] } : RunSt) := by
        obtain ⟨h1, h2, h3, h4, h5, h6, h7⟩ := h
        exact ⟨h1, h2, h3, h4, h5, h6, h7⟩
      have h1 := shelterLoop_exclInv mode n p?
        (cfg.pop (acs5GeoidPrefixStr ++ doc.blockgroup.geoid)) doc.blockgroup.origin
        doc.shelters _ h0
      obtain ⟨g1, g2, g3, g4, g5, g6, g7⟩ := h1
      exact ⟨g1, g2, g3, g4, g5, g6, g7⟩
    · exact h

theorem analyze_exclInv (cfg : Config) (mode : Mode) (n : Nat)
    (zs : Option (List String)) (docs : List Doc) :
    ExclInv (pyTruthy (resolvePoly cfg zs)) (analyze cfg mode n zs docs) := by
  unfold analyze
  have hinit : ExclInv (pyTruthy (resolvePoly cfg zs)) initSt := by
    refine ⟨List.nodup_nil, ?_, ?_, ?_, ?_, ?_, ?_⟩ <;>
      simp [initSt]
  generalize initSt = st0 at hinit ⊢
  induction docs generalizing st0 with
  | nil => simpa using hinit
  | cons d ds ihd =>
      simp only [List.foldl_cons]
      exact ihd _ (processDoc_exclInv cfg mode n _ st0 d hinit)

/-- C5: within one aggregator run, no shelter object ID that is in
excluded_shelters is ever counted into shelter_pops (the two sets are
mutually exclusive), and the point-in-polygon test (logged in `tests`) is
evaluated at most once per shelter ID: the test log is duplicate free. -/
theorem analyze_excluded_never_counted_and_tested_once (cfg : Config) (mode : Mode)
    (n : Nat) (zs : Option (List String)) (docs : List Doc) :
    (∀ x ∈ (analyze cfg mode n zs docs).excluded_shelters,
        x ∉ (analyze cfg mode n zs docs).counted)
    ∧ (analyze cfg mode n zs docs).tests.Nodup := by
  obtain ⟨h1, h2, h3, h4, h5, h6, h7⟩ := analyze_exclInv cfg mode n zs docs
  refine ⟨?_, h1⟩
  intro x hx hxc
  cases ha : pyTruthy (resolvePoly cfg zs) with
  | true => exact h5 x hx (h6 ha x hxc)
  | false =>
      rw [(h7 ha).1] at hx
      exact absurd hx (List.not_mem_nil x)

/-- C5 (witness): in the concrete run resC5, shelter 1 is excluded by the
polygon; the theorem yields that it was never counted, and that the test
log has no duplicates. -/
theorem analyze_excluded_never_counted_witness :
    (1 ∉ resC5.counted) ∧ resC5.tests.Nodup := by
  have h := analyze_excluded_never_counted_and_tested_once cfgE Mode.walk 2
    (some ["ZONE A"]) [docC2]
  exact ⟨h.1 1 (by decide), h.2⟩

/-! ## shelter_pops accounting (claim C8 machinery) -/

theorem lookupPop?_nil (key : String) : lookupPop? [] key = none := rfl

theorem lookupPop?_cons (a : String × Nat) (pops : List (String × Nat)) (key : String) :
    lookupPop? (a :: pops) key = if a.1 = key then some a.2 else lookupPop? pops key := by
  by_cases h : a.1 = key
  · simp [lookupPop?, List.find?_cons, h]
  · simp [lookupPop?, List.find?_cons, h]

theorem lookup_map_update (k : String) (v : Nat) (key : String) :
    ∀ pops : List (String × Nat),
      lookupPop? (pops.map (fun kv => if kv.1 == k then (kv.1, kv.2 + v) else kv)) key =
        if key = k then (lookupPop? pops key).map (fun t => t + v)
        else lookupPop? pops key := by
  intro pops
  simp only [beq_iff_eq]
  induction pops with
  | nil => simp [lookupPop?]
  | cons a rest ih =>
      rw [List.map_cons]
      by_cases hak : a.1 = k
      · rw [if_pos (by simpa using hak)]
        rw [lookupPop?_cons, lookupPop?_cons]
        by_cases hkey : a.1 = key
        · have hkk : key = k := hkey.symm.trans hak
          simp [hkey, hkk, ih]
        · have hkk : ¬ key = k := fun hc => hkey (hak.trans hc.symm)
          simp [hkey, hkk, ih]
      · rw [if_neg (by simpa using hak)]
        rw [lookupPop?_cons, lookupPop?_cons]
        by_cases hkey : a.1 = key
        · have hkk : ¬ key = k := fun hc => hak (hkey.trans hc)
          simp [hkey, hkk, ih]
        · simp [hkey, ih]

theorem lookup_append_single (k : String) (v : Nat) (key : String) :
    ∀ pops : List (String × Nat),
      lookupPop? (pops ++ [(k, v)]) key =
        (match lookupPop? pops key with
         | some t => some t
         | none => if k = key then some v else none) := by
  intro pops
  induction pops with
  | nil =>
      simp only [List.nil_append, lookupPop?_nil]
      rw [lookupPop?_cons]
      rfl
  | cons a rest ih =>
      by_cases hkey : a.1 = key
      · simp only [List.cons_append]
        rw [lookupPop?_cons, lookupPop?_cons]
        simp [hkey]
      · simp only [List.cons_append]
        rw [lookupPop?_cons, lookupPop?_cons]
        simp only [hkey, if_false, ih]

theorem lookupPop?_bump (pops : List (String × Nat)) (k : String) (v : Nat) (key : String) :
    lookupPop? (bump pops k v) key =
      if key = k then some ((lookupPop? pops k).getD 0 + v) else lookupPop? pops key := by
  unfold bump
  by_cases hfound : (pops.find? (fun kv => kv.1 == k)).isSome = true
  · rw [if_pos hfound]
    rw [lookup_map_update]
    by_cases hkk : key = k
    · rw [if_pos hkk, if_pos hkk]
      have hsome : (lookupPop? pops k).isSome = true := by
        unfold lookupPop?
        simpa using hfound
      obtain ⟨t, ht⟩ := Option.isSome_iff_exists.mp hsome
      rw [hkk, ht]
      rfl
    · rw [if_neg hkk, if_neg hkk]
  · rw [if_neg hfound]
    rw [lookup_append_single]
    have hf : pops.find? (fun kv => kv.1 == k) = none :=
      Option.not_isSome_iff_eq_none.mp (by simpa using hfound)
    have hnone : lookupPop? pops k = none := by
      unfold lookupPop?
      rw [hf]
      rfl
    by_cases hkk : key = k
    · rw [if_pos hkk, hkk, hnone]
      simp
    · rw [if_neg hkk]
      cases h : lookupPop? pops key with
      | some t => rfl
      | none =>
          simp only []
          rw [if_neg (fun hc => hkk hc.symm)]

theorem lookupPop?_bumpList (v : Nat) :
    ∀ (ks : List String) (pops : List (String × Nat)) (key : String),
      lookupPop? (bumpList pops ks v) key =
        if ks.count key = 0 then lookupPop? pops key
        else some ((lookupPop? pops key).getD 0 + v * ks.count key) := by
  intro ks
  induction ks with
  | nil => intro pops key; simp [bumpList]
  | cons k ks ih =>
      intro pops key
      have hstep : bumpList pops (k :: ks) v = bumpList (bump pops k v) ks v := rfl
      rw [hstep, ih]
      by_cases hk : key = k
      · subst hk
        rw [List.count_cons_self]
        rw [lookupPop?_bump]
        rw [if_pos rfl]
        by_cases hc : ks.count key = 0
        · rw [if_pos hc, if_neg (by omega)]
          simp [hc]
        · rw [if_neg hc, if_neg (by omega)]
          have : ((lookupPop? pops key).getD 0 + v) + v * ks.count key =
              (lookupPop? pops key).getD 0 + v * (ks.count key + 1) := by
            have hmul : v * (ks.count key + 1) = v * ks.count key + v := by
              exact Nat.mul_succ v (ks.count key)
            omega
          simp [this]
      · have hk2 : ¬ k = key := fun hc => hk hc.symm
        have hcount : (k :: ks).count key = ks.count key := by
          rw [List.count_cons]
          simp [hk, hk2]
        rw [hcount]
        rw [lookupPop?_bump, if_neg hk]

theorem totalFor_append (key : String) (bgs : List BGOut) (b : BGOut) :
    totalFor key (bgs ++ [b]) =
      totalFor key bgs + b.population * (countedKeys b).count key := by
  simp [totalFor, List.map_append, List.sum_append]

theorem appearsIn_append (key : String) (bgs : List BGOut) (b : BGOut) :
    appearsIn key (bgs ++ [b]) =
      (appearsIn key bgs || (countedKeys b).contains key) := by
  simp [appearsIn, List.any_append]

theorem totalFor_eq_zero (key : String) :
    ∀ bgs : List BGOut, appearsIn key bgs = false → totalFor key bgs = 0 := by
  intro bgs
  induction bgs with
  | nil => intro _; rfl
  | cons b rest ih =>
      intro h
      simp only [appearsIn, List.any_cons, Bool.or_eq_false_iff] at h
      have h1 : (countedKeys b).count key = 0 := by
        rw [List.count_eq_zero]
        intro hc
        have hcontains : (countedKeys b).contains key = true := List.elem_iff.mpr hc
        rw [h.1] at hcontains
        exact nomatch hcontains
      have h2 : totalFor key rest = 0 := ih (by simpa [appearsIn] using h.2)
      simp [totalFor, List.map_cons, List.sum_cons, h1] at h2 ⊢
      exact h2

theorem shelterLoop_popsStruct (mode : Mode) (n : Nat) (p? : Option ExclPoly)
    (bgPop : Nat) (origin : Coord) :
    ∀ (l : List Shelter) (st : RunSt),
      ∃ ks : List Nat,
        (shelterLoop mode n p? bgPop origin l st).doc_counted = st.doc_counted ++ ks ∧
        (shelterLoop mode n p? bgPop origin l st).shelter_pops =
          bumpList st.shelter_pops (ks.map (fun i => toString i)) bgPop ∧
        (shelterLoop mode n p? bgPop origin l st).blockgroups = st.blockgroups := by
  intro l
  induction l with
  | nil =>
      intro st
      exact ⟨[], by simp [shelterLoop, bumpList]⟩
  | cons s rest ih =>
    intro st
    cases hr : s.routes.get mode with
    | none =>
        simp only [shelterLoop, hr]
        split
        · exact ⟨[], by simp [bumpList]⟩
        · obtain ⟨ks, h1, h2, h3⟩ := ih (recordShelter st s)
          exact ⟨ks, by simpa using h1, by simpa using h2, by simpa using h3⟩
    | some r =>
        cases p? with
        | none =>
            simp only [shelterLoop, hr]
            split
            · refine ⟨[s.objectid], by simp, by simp [bumpList], by simp⟩
            · obtain ⟨ks, h1, h2, h3⟩ := ih (countShelter (recordShelter st s) s r bgPop origin)
              refine ⟨s.objectid :: ks, ?_, ?_, ?_⟩
              · rw [h1]; simp
              · rw [h2]; simp [bumpList]
              · rw [h3]; simp
        | some p =>
            simp only [shelterLoop, hr]
            by_cases hpt : p.truthy = true
            · rw [if_pos hpt]
              by_cases hex : (recordShelter st s).excluded_shelters.contains s.objectid = true
              · rw [if_pos hex]
                obtain ⟨ks, h1, h2, h3⟩ := ih (recordShelter st s)
                exact ⟨ks, by simpa using h1, by simpa using h2, by simpa using h3⟩
              · rw [if_neg hex]
                by_cases hne : (recordShelter st s).not_excluded.contains s.objectid = true
                · rw [if_pos hne]
                  split
                  · refine ⟨[s.objectid], by simp, by simp [bumpList], by simp⟩
                  · obtain ⟨ks, h1, h2, h3⟩ :=
                      ih (countShelter (recordShelter st s) s r bgPop origin)
                    refine ⟨s.objectid :: ks, ?_, ?_, ?_⟩
                    · rw [h1]; simp
                    · rw [h2]; simp [bumpList]
                    · rw [h3]; simp
                · rw [if_neg hne]
                  by_cases hcont : p.contains s.coordinates = true
                  · rw [if_pos hcont]
                    obtain ⟨ks, h1, h2, h3⟩ := ih
                      { recordShelter st s with
                        tests := (recordShelter st s).tests ++ [s.objectid],
                        excluded_shelters :=
                          (recordShelter st s).excluded_shelters ++ [s.objectid] }
                    exact ⟨ks, by simpa using h1, by simpa using h2, by simpa using h3⟩
                  · rw [if_neg hcont]
                    split
                    · refine ⟨[s.objectid], by simp, by simp [bumpList], by simp⟩
                    · obtain ⟨ks, h1, h2, h3⟩ := ih (countShelter
                        { recordShelter st s with
                          tests := (recordShelter st s).tests ++ [s.objectid],
                          not_excluded :=
                            (recordShelter st s).not_excluded ++ [s.objectid] }
                        s r bgPop origin)
                      refine ⟨s.objectid :: ks, ?_, ?_, ?_⟩
                      · rw [h1]; simp
                      · rw [h2]; simp [bumpList]
                      · rw [h3]; simp
            · rw [if_neg hpt]
              split
              · refine ⟨[s.objectid], by simp, by simp [bumpList], by simp⟩
              · obtain ⟨ks, h1, h2, h3⟩ := ih (countShelter (recordShelter st s) s r bgPop origin)
                refine ⟨s.objectid :: ks, ?_, ?_, ?_⟩
                · rw [h1]; simp
                · rw [h2]; simp [bumpList]
                · rw [h3]; simp

theorem popsAgree_extend (pops : List (String × Nat)) (bgs : List BGOut) (b : BGOut)
    (key : String)
    (h : lookupPop? pops key =
      if appearsIn key bgs = true then some (totalFor key bgs) else none) :
    lookupPop? (bumpList pops (countedKeys b) b.population) key =
      if appearsIn key (bgs ++ [b]) = true
      then some (totalFor key (bgs ++ [b])) else none := by
  rw [lookupPop?_bumpList]
  rw [appearsIn_append, totalFor_append]
  by_cases hc : (countedKeys b).count key = 0
  · rw [if_pos hc]
    have hcont : (countedKeys b).contains key = false := by
      have hnm : key ∉ countedKeys b := List.count_eq_zero.mp hc
      have := fun hcc => hnm (List.elem_iff.mp hcc)
      cases hcc : (countedKeys b).contains key with
      | true => exact absurd hcc this
      | false => rfl
    rw [hcont, Bool.or_false, hc, Nat.mul_zero, Nat.add_zero]
    exact h
  · rw [if_neg hc]
    have hmem : key ∈ countedKeys b := by
      by_contra hnm
      exact hc (List.count_eq_zero.mpr hnm)
    have hcont : (countedKeys b).contains key = true := List.elem_iff.mpr hmem
    rw [hcont, Bool.or_true]
    simp only [if_true]
    by_cases ha : appearsIn key bgs = true
    · rw [if_pos ha] at h
      rw [h]
      rfl
    · rw [if_neg ha] at h
      have ha' : appearsIn key bgs = false := by
        cases hv : appearsIn key bgs with
        | true => exact absurd hv ha
        | false => rfl
      rw [h, totalFor_eq_zero key bgs ha']
      simp

theorem processDoc_not_analyzed (cfg : Config) (mode : Mode) (n : Nat)
    (p? : Option ExclPoly) (st : RunSt) (doc : Doc)
    (h : analyzedB cfg doc = false) :
    processDoc cfg mode n p? st doc = st := by
  by_cases hig : IGNORE_GEOIDS.contains doc.blockgroup.geoid = true
  · have hig' : doc.blockgroup.geoid ∈ IGNORE_GEOIDS := List.elem_iff.mp hig
    simp [processDoc, hig']
  · have hb : cfg.bostonContains doc.blockgroup.centroid = false := by
      unfold analyzedB at h
      rcases Bool.and_eq_false_iff.mp h with h1 | h1
      · have : IGNORE_GEOIDS.contains doc.blockgroup.geoid = true := by
          cases hv : IGNORE_GEOIDS.contains doc.blockgroup.geoid with
          | true => rfl
          | false => rw [hv] at h1; exact nomatch h1
        exact absurd this hig
      · exact h1
    have hig2 : doc.blockgroup.geoid ∉ IGNORE_GEOIDS :=
      fun hm => hig (List.elem_iff.mpr hm)
    simp [processDoc, hig2, hb]

theorem processDoc_popsAgree (cfg : Config) (mode : Mode) (n : Nat)
    (p? : Option ExclPoly) (st : RunSt) (doc : Doc)
    (h : ∀ key, lookupPop? st.shelter_pops key =
      if appearsIn key st.blockgroups = true
      then some (totalFor key st.blockgroups) else none) (key : String) :
    lookupPop? (processDoc cfg mode n p? st doc).shelter_pops key =
      if appearsIn key (processDoc cfg mode n p? st doc).blockgroups = true
      then some (totalFor key (processDoc cfg mode n p? st doc).blockgroups)
      else none := by
  unfold processDoc
  split
  · exact h key
  · split
    · obtain ⟨ks, hk1, hk2, hk3⟩ := shelterLoop_popsStruct mode n p?
        (cfg.pop (acs5GeoidPrefixStr ++ doc.blockgroup.geoid)) doc.blockgroup.origin
        doc.shelters { st with travel_times := [], doc_counted := [] }
      have hdc : (shelterLoop mode n p?
          (cfg.pop (acs5GeoidPrefixStr ++ doc.blockgroup.geoid)) doc.blockgroup.origin
          doc.shelters { st with travel_times := [], doc_counted := [] }).doc_counted = ks := by
        simpa using hk1
      show lookupPop? (shelterLoop mode n p?
          (cfg.pop (acs5GeoidPrefixStr ++ doc.blockgroup.geoid)) doc.blockgroup.origin
          doc.shelters { st with travel_times := [], doc_counted := [] }).shelter_pops key =
        if appearsIn key ((shelterLoop mode n p?
            (cfg.pop (acs5GeoidPrefixStr ++ doc.blockgroup.geoid)) doc.blockgroup.origin
            doc.shelters { st with travel_times := [], doc_counted := [] }).blockgroups ++
            [{ avg_travel := pyDivBy (if 0 < (shelterLoop mode n p?
                  (cfg.pop (acs5GeoidPrefixStr ++ doc.blockgroup.geoid)) doc.blockgroup.origin
                  doc.shelters { st with travel_times := [], doc_counted := [] }).travel_times.length
                then some ((shelterLoop mode n p?
                  (cfg.pop (acs5GeoidPrefixStr ++ doc.blockgroup.geoid)) doc.blockgroup.origin
                  doc.shelters { st with travel_times := [], doc_counted := [] }).travel_times.sum /
                  ((shelterLoop mode n p?
                  (cfg.pop (acs5GeoidPrefixStr ++ doc.blockgroup.geoid)) doc.blockgroup.origin
                  doc.shelters { st with travel_times := [], doc_counted := [] }).travel_times.length : ℚ))
                else none) 60
               geoid := doc.blockgroup.geoid
               population := cfg.pop (acs5GeoidPrefixStr ++ doc.blockgroup.geoid)
               counted_ids := (shelterLoop mode n p?
                  (cfg.pop (acs5GeoidPrefixStr ++ doc.blockgroup.geoid)) doc.blockgroup.origin
                  doc.shelters { st with travel_times := [], doc_counted := [] }).doc_counted }]) = true
        then some (totalFor key ((shelterLoop mode n p?
            (cfg.pop (acs5GeoidPrefixStr ++ doc.blockgroup.geoid)) doc.blockgroup.origin
            doc.shelters { st with travel_times := [], doc_counted := [] }).blockgroups ++
            [{ avg_travel := pyDivBy (if 0 < (shelterLoop mode n p?
                  (cfg.pop (acs5GeoidPrefixStr ++ doc.blockgroup.geoid)) doc.blockgroup.origin
                  doc.shelters { st with travel_times := [], doc_counted := [] }).travel_times.length
                then some ((shelterLoop mode n p?
                  (cfg.pop (acs5GeoidPrefixStr ++ doc.blockgroup.geoid)) doc.blockgroup.origin
                  doc.shelters { st with travel_times := [], doc_counted := [] }).travel_times.sum /
                  ((shelterLoop mode n p?
                  (cfg.pop (acs5GeoidPrefixStr ++ doc.blockgroup.geoid)) doc.blockgroup.origin
                  doc.shelters { st with travel_times := [], doc_counted := [] }).travel_times.length : ℚ))
                else none) 60
               geoid := doc.blockgroup.geoid
               population := cfg.pop (acs5GeoidPrefixStr ++ doc.blockgroup.geoid)
               counted_ids := (shelterLoop mode n p?
                  (cfg.pop (acs5GeoidPrefixStr ++ doc.blockgroup.geoid)) doc.blockgroup.origin
                  doc.shelters { st with travel_times := [], doc_counted := [] }).doc_counted }]))
        else none
      rw [hk2, hk3, hdc]
      exact popsAgree_extend st.shelter_pops st.blockgroups
        { avg_travel := pyDivBy (if 0 < (shelterLoop mode n p?
              (cfg.pop (acs5GeoidPrefixStr ++ doc.blockgroup.geoid)) doc.blockgroup.origin
              doc.shelters { st with travel_times := [], doc_counted := [] }).travel_times.length
            then some ((shelterLoop mode n p?
              (cfg.pop (acs5GeoidPrefixStr ++ doc.blockgroup.geoid)) doc.blockgroup.origin
              doc.shelters { st with travel_times := [], doc_counted := [] }).travel_times.sum /
              ((shelterLoop mode n p?
              (cfg.pop (acs5GeoidPrefixStr ++ doc.blockgroup.geoid)) doc.blockgroup.origin
              doc.shelters { st with travel_times := [], doc_counted := [] }).travel_times.length : ℚ))
            else none) 60
          geoid := doc.blockgroup.geoid
          population := cfg.pop (acs5GeoidPrefixStr ++ doc.blockgroup.geoid)
          counted_ids := ks } key (h key)
    · exact h key

/-- C8: for every shelter_pops key, the final total equals the sum over
the analyzed block groups of the block group's full population multiplied
by the number of times that key was counted for it — each of the up-to-N
counted shelters receives the block group's entire population (never a
share of it), and a key is present exactly when some block group counted
it. -/
theorem analyze_counted_full_population (cfg : Config) (mode : Mode) (n : Nat)
    (zs : Option (List String)) (docs : List Doc) (key : String) :
    lookupPop? (analyze cfg mode n zs docs).shelter_pops key =
      if appearsIn key (analyze cfg mode n zs docs).blockgroups = true
      then some (totalFor key (analyze cfg mode n zs docs).blockgroups)
      else none := by
  unfold analyze
  have H : ∀ (ds : List Doc) (st : RunSt),
      (∀ k, lookupPop? st.shelter_pops k =
        if appearsIn k st.blockgroups = true
        then some (totalFor k st.blockgroups) else none) →
      ∀ k, lookupPop?
          ((ds.foldl (processDoc cfg mode n (resolvePoly cfg zs)) st)).shelter_pops k =
        if appearsIn k
            ((ds.foldl (processDoc cfg mode n (resolvePoly cfg zs)) st)).blockgroups = true
        then some (totalFor k
            ((ds.foldl (processDoc cfg mode n (resolvePoly cfg zs)) st)).blockgroups)
        else none := by
    intro ds
    induction ds with
    | nil => intro st h k; simpa using h k
    | cons d rest ihd =>
        intro st h k
        simp only [List.foldl_cons]
        exact ihd _ (fun k2 => processDoc_popsAgree cfg mode n _ st d h k2) k
  exact H docs initSt (fun k => by simp [initSt, lookupPop?, appearsIn]) key

/-- C8 (witness): the theorem instantiated on the scenario run, key "1":
shelter 1 was counted once for the single block group of population 100. -/
theorem analyze_counted_full_population_witness :
    lookupPop? resC2.shelter_pops "1" =
      if appearsIn "1" resC2.blockgroups = true
      then some (totalFor "1" resC2.blockgroups)
      else none :=
  analyze_counted_full_population cfgA Mode.walk 2 none [docC2] "1"

/-! ## Memoization-vs-geometry agreement (claims C6/C7 machinery) -/

theorem memoOk_record (p? : Option ExclPoly) (pool : List Shelter) (st : RunSt)
    (s : Shelter) (h : MemoOk p? pool st) : MemoOk p? pool (recordShelter st s) := by
  intro p hp ht
  obtain ⟨A, B⟩ := h p hp ht
  constructor
  · intro x hx
    exact A x (by simpa using hx)
  · intro x hx
    exact B x (by simpa using hx)

theorem memoOk_count (p? : Option ExclPoly) (pool : List Shelter) (st : RunSt)
    (s : Shelter) (r : Route) (bgPop : Nat) (origin : Coord)
    (h : MemoOk p? pool st) : MemoOk p? pool (countShelter st s r bgPop origin) := by
  intro p hp ht
  obtain ⟨A, B⟩ := h p hp ht
  constructor
  · intro x hx
    exact A x (by simpa using hx)
  · intro x hx
    exact B x (by simpa using hx)

theorem memoOk_add_excluded (p : ExclPoly) (pool : List Shelter) (st : RunSt)
    (s : Shelter) (hpool : PoolConsistent pool) (hs : s ∈ pool)
    (hcont : p.contains s.coordinates = true)
    (h : MemoOk (some p) pool st) :
    MemoOk (some p) pool
      { st with tests := st.tests ++ [s.objectid],
                excluded_shelters := st.excluded_shelters ++ [s.objectid] } := by
  intro p' hp' ht'
  injection hp' with h'
  subst h'
  obtain ⟨A, B⟩ := h _ rfl ht'
  constructor
  · intro x hx s' hs' hid
    simp only [List.mem_append, List.mem_singleton] at hx
    rcases hx with hx | rfl
    · exact A x hx s' hs' hid
    · have hco : s'.coordinates = s.coordinates := hpool s' hs' s hs hid
      rw [hco]
      exact hcont
  · intro x hx s' hs' hid
    exact B x (by simpa using hx) s' hs' hid

theorem memoOk_add_not_excluded (p : ExclPoly) (pool : List Shelter) (st : RunSt)
    (s : Shelter) (hpool : PoolConsistent pool) (hs : s ∈ pool)
    (hcont : p.contains s.coordinates = false)
    (h : MemoOk (some p) pool st) :
    MemoOk (some p) pool
      { st with tests := st.tests ++ [s.objectid],
                not_excluded := st.not_excluded ++ [s.objectid] } := by
  intro p' hp' ht'
  injection hp' with h'
  subst h'
  obtain ⟨A, B⟩ := h _ rfl ht'
  constructor
  · intro x hx s' hs' hid
    exact A x (by simpa using hx) s' hs' hid
  · intro x hx s' hs' hid
    simp only [List.mem_append, List.mem_singleton] at hx
    rcases hx with hx | rfl
    · exact B x hx s' hs' hid
    · have hco : s'.coordinates = s.coordinates := hpool s' hs' s hs hid
      rw [hco]
      exact hcont

theorem shelterLoop_takeChar_step (mode : Mode) (n : Nat) (p? : Option ExclPoly)
    (bgPop : Nat) (origin : Coord) (pool : List Shelter)
    (rest : List Shelter) (s : Shelter) (r : Route)
    (hr : s.routes.get mode = some r)
    (hval : shelterValidB mode p? s = true)
    (st stPre : RunSt)
    (hpre_travel : stPre.travel_times = st.travel_times)
    (hpre_doc : stPre.doc_counted = st.doc_counted)
    (hpre_bg : stPre.blockgroups = st.blockgroups)
    (hMemoPre : MemoOk p? pool stPre)
    (hk : st.travel_times.length < n)
    (ih : ∀ st' : RunSt, MemoOk p? pool st' → st'.travel_times.length < n →
      (shelterLoop mode n p? bgPop origin rest st').doc_counted =
        st'.doc_counted ++ ((rest.filter (shelterValidB mode p?)).take
          (n - st'.travel_times.length)).map (fun s2 => s2.objectid) ∧
      (shelterLoop mode n p? bgPop origin rest st').travel_times =
        st'.travel_times ++ ((rest.filter (shelterValidB mode p?)).take
          (n - st'.travel_times.length)).map (durOf mode) ∧
      (shelterLoop mode n p? bgPop origin rest st').blockgroups = st'.blockgroups ∧
      MemoOk p? pool (shelterLoop mode n p? bgPop origin rest st')) :
    (if (countShelter stPre s r bgPop origin).travel_times.length = n
     then countShelter stPre s r bgPop origin
     else shelterLoop mode n p? bgPop origin rest
       (countShelter stPre s r bgPop origin)).doc_counted =
      st.doc_counted ++ (((s :: rest).filter (shelterValidB mode p?)).take
        (n - st.travel_times.length)).map (fun s2 => s2.objectid) ∧
    (if (countShelter stPre s r bgPop origin).travel_times.length = n
     then countShelter stPre s r bgPop origin
     else shelterLoop mode n p? bgPop origin rest
       (countShelter stPre s r bgPop origin)).travel_times =
      st.travel_times ++ (((s :: rest).filter (shelterValidB mode p?)).take
        (n - st.travel_times.length)).map (durOf mode) ∧
    (if (countShelter stPre s r bgPop origin).travel_times.length = n
     then countShelter stPre s r bgPop origin
     else shelterLoop mode n p? bgPop origin rest
       (countShelter stPre s r bgPop origin)).blockgroups = st.blockgroups ∧
    MemoOk p? pool
      (if (countShelter stPre s r bgPop origin).travel_times.length = n
       then countShelter stPre s r bgPop origin
       else shelterLoop mode n p? bgPop origin rest
         (countShelter stPre s r bgPop origin)) := by
  by_cases hbreak : (countShelter stPre s r bgPop origin).travel_times.length = n
  · rw [if_pos hbreak]
    have hlen1 : st.travel_times.length + 1 = n := by
      simpa [hpre_travel] using hbreak
    have htake : n - st.travel_times.length = 1 := by omega
    refine ⟨?_, ?_, ?_, memoOk_count _ _ _ _ _ _ _ hMemoPre⟩
    · simp [hpre_doc, List.filter_cons, hval, htake]
    · simp [hpre_travel, List.filter_cons, hval, htake, durOf, hr]
    · simp [hpre_bg]
  · rw [if_neg hbreak]
    have hk2 : (countShelter stPre s r bgPop origin).travel_times.length < n := by
      simp only [countShelter_travel_times, hpre_travel, List.length_append,
        List.length_cons, List.length_nil] at hbreak ⊢
      omega
    obtain ⟨c1, c2, c3, c4⟩ := ih _ (memoOk_count _ _ _ _ _ _ _ hMemoPre) hk2
    have harith : n - st.travel_times.length = (n - (st.travel_times.length + 1)) + 1 := by
      omega
    refine ⟨?_, ?_, ?_, c4⟩
    · rw [c1]
      simp [hpre_doc, hpre_travel, List.filter_cons, hval, harith, List.take_succ_cons]
    · rw [c2]
      simp [hpre_travel, List.filter_cons, hval, harith, List.take_succ_cons, durOf, hr]
    · rw [c3]
      simpa using hpre_bg

theorem shelterLoop_takeChar (mode : Mode) (n : Nat) (p? : Option ExclPoly)
    (bgPop : Nat) (origin : Coord) (pool : List Shelter)
    (hgeo : ∀ p, p? = some p → p.truthy = true → PoolConsistent pool) :
    ∀ (l : List Shelter), (∀ s ∈ l, s ∈ pool) → ∀ st : RunSt,
      MemoOk p? pool st → st.travel_times.length < n →
      (shelterLoop mode n p? bgPop origin l st).doc_counted =
        st.doc_counted ++ ((l.filter (shelterValidB mode p?)).take
          (n - st.travel_times.length)).map (fun s2 => s2.objectid) ∧
      (shelterLoop mode n p? bgPop origin l st).travel_times =
        st.travel_times ++ ((l.filter (shelterValidB mode p?)).take
          (n - st.travel_times.length)).map (durOf mode) ∧
      (shelterLoop mode n p? bgPop origin l st).blockgroups = st.blockgroups ∧
      MemoOk p? pool (shelterLoop mode n p? bgPop origin l st) := by
  intro l
  induction l with
  | nil =>
      intro _ st hMemo hk
      exact ⟨by simp [shelterLoop], by simp [shelterLoop], by simp [shelterLoop],
        by simpa [shelterLoop] using hMemo⟩
  | cons s rest ih =>
    intro hl st hMemo hk
    have hs_pool : s ∈ pool := hl s (by simp)
    have hl' : ∀ s2 ∈ rest, s2 ∈ pool := fun s2 h2 => hl s2 (by simp [h2])
    have ih' := ih hl'
    cases hr : s.routes.get mode with
    | none =>
        have hval : shelterValidB mode p? s = false := by
          simp [shelterValidB, hr]
        simp only [shelterLoop, hr]
        have hkne : ¬ ((recordShelter st s).travel_times.length = n) := by
          simp only [recordShelter_travel_times]
          omega
        rw [if_neg hkne]
        obtain ⟨c1, c2, c3, c4⟩ := ih' (recordShelter st s) (memoOk_record _ _ _ _ hMemo)
          (by simpa using hk)
        refine ⟨?_, ?_, ?_, c4⟩
        · rw [c1]; simp [List.filter_cons, hval]
        · rw [c2]; simp [List.filter_cons, hval]
        · rw [c3]; simp
    | some r =>
      cases p? with
      | none =>
          have hval : shelterValidB mode none s = true := by
            simp [shelterValidB, shelterExcludedB, hr]
          simp only [shelterLoop, hr]
          exact shelterLoop_takeChar_step mode n none bgPop origin pool rest s r hr hval
            st (recordShelter st s) (by simp) (by simp) (by simp)
            (memoOk_record _ _ _ _ hMemo) hk ih'
      | some p =>
          simp only [shelterLoop, hr]
          by_cases hpt : p.truthy = true
          · rw [if_pos hpt]
            have hpool : PoolConsistent pool := hgeo p rfl hpt
            by_cases hex : (recordShelter st s).excluded_shelters.contains s.objectid = true
            · rw [if_pos hex]
              have hmemx : s.objectid ∈ st.excluded_shelters := by
                have := List.elem_iff.mp hex
                simpa using this
              have hcont : p.contains s.coordinates = true :=
                ((hMemo p rfl hpt).1 s.objectid hmemx s hs_pool rfl)
              have hval : shelterValidB mode (some p) s = false := by
                simp [shelterValidB, shelterExcludedB, hr, hpt, hcont]
              obtain ⟨c1, c2, c3, c4⟩ := ih' (recordShelter st s)
                (memoOk_record _ _ _ _ hMemo) (by simpa using hk)
              refine ⟨?_, ?_, ?_, c4⟩
              · rw [c1]; simp [List.filter_cons, hval]
              · rw [c2]; simp [List.filter_cons, hval]
              · rw [c3]; simp
            · rw [if_neg hex]
              by_cases hne : (recordShelter st s).not_excluded.contains s.objectid = true
              · rw [if_pos hne]
                have hmemn : s.objectid ∈ st.not_excluded := by
                  have := List.elem_iff.mp hne
                  simpa using this
                have hcont : p.contains s.coordinates = false :=
                  ((hMemo p rfl hpt).2 s.objectid hmemn s hs_pool rfl)
                have hval : shelterValidB mode (some p) s = true := by
                  simp [shelterValidB, shelterExcludedB, hr, hpt, hcont]
                exact shelterLoop_takeChar_step mode n (some p) bgPop origin pool rest s r
                  hr hval st (recordShelter st s) (by simp) (by simp) (by simp)
                  (memoOk_record _ _ _ _ hMemo) hk ih'
              · rw [if_neg hne]
                by_cases hcont : p.contains s.coordinates = true
                · rw [if_pos hcont]
                  have hval : shelterValidB mode (some p) s = false := by
                    simp [shelterValidB, shelterExcludedB, hr, hpt, hcont]
                  have hMemo2 := memoOk_add_excluded p pool (recordShelter st s) s hpool
                    hs_pool hcont (memoOk_record _ _ _ _ hMemo)
                  obtain ⟨c1, c2, c3, c4⟩ := ih' _ hMemo2 (by simpa using hk)
                  refine ⟨?_, ?_, ?_, c4⟩
                  · rw [c1]; simp [List.filter_cons, hval]
                  · rw [c2]; simp [List.filter_cons, hval]
                  · rw [c3]; simp
                · rw [if_neg hcont]
                  have hcont' : p.contains s.coordinates = false := by
                    cases hc : p.contains s.coordinates with
                    | true => exact absurd hc hcont
                    | false => rfl
                  have hval : shelterValidB mode (some p) s = true := by
                    simp [shelterValidB, shelterExcludedB, hr, hpt, hcont']
                  have hMemo2 := memoOk_add_not_excluded p pool (recordShelter st s) s hpool
                    hs_pool hcont' (memoOk_record _ _ _ _ hMemo)
                  exact shelterLoop_takeChar_step mode n (some p) bgPop origin pool rest s r
                    hr hval st _ (by simp) (by simp) (by simp) hMemo2 hk ih'
          · rw [if_neg hpt]
            have hptf : p.truthy = false := by
              cases hc : p.truthy with
              | true => exact absurd hc hpt
              | false => rfl
            have hval : shelterValidB mode (some p) s = true := by
              simp [shelterValidB, shelterExcludedB, hr, hptf]
            exact shelterLoop_takeChar_step mode n (some p) bgPop origin pool rest s r hr hval
              st (recordShelter st s) (by simp) (by simp) (by simp)
              (memoOk_record _ _ _ _ hMemo) hk ih'

theorem processDoc_takeChar (cfg : Config) (mode : Mode) (n : Nat)
    (p? : Option ExclPoly) (pool : List Shelter)
    (hgeo : ∀ p, p? = some p → p.truthy = true → PoolConsistent pool)
    (hn : 1 ≤ n) (st : RunSt) (doc : Doc)
    (hmem : ∀ s ∈ doc.shelters, s ∈ pool)
    (hMemo : MemoOk p? pool st) :
    (processDoc cfg mode n p? st doc).blockgroups.map (fun b => b.counted_ids) =
      st.blockgroups.map (fun b => b.counted_ids) ++
        (if analyzedB cfg doc = true then
          [((doc.shelters.filter (shelterValidB mode p?)).take n).map
            (fun s2 => s2.objectid)]
         else []) ∧
    MemoOk p? pool (processDoc cfg mode n p? st doc) := by
  by_cases ha : analyzedB cfg doc = true
  · rw [if_pos ha]
    unfold processDoc
    split
    · rename_i hcond
      exfalso
      unfold analyzedB at ha
      rw [hcond] at ha
      simp at ha
    · split
      · obtain ⟨c1, c2, c3, c4⟩ := shelterLoop_takeChar mode n p?
          (cfg.pop (acs5GeoidPrefixStr ++ doc.blockgroup.geoid)) doc.blockgroup.origin
          pool hgeo doc.shelters hmem
          { st with travel_times := [], doc_counted := [] }
          (fun p hp ht => hMemo p hp ht)
          (by simp only [List.length_nil]; omega)
        constructor
        · simp only [List.map_append, List.map_cons, List.map_nil]
          rw [c3]
          simp [c1]
        · exact fun p hp ht => c4 p hp ht
      · rename_i hbos
        exfalso
        unfold analyzedB at ha
        rw [Bool.and_eq_true] at ha
        exact hbos ha.2
  · have ha' : analyzedB cfg doc = false := by
      cases hv : analyzedB cfg doc with
      | true => exact absurd hv ha
      | false => rfl
    rw [if_neg ha]
    rw [processDoc_not_analyzed cfg mode n p? st doc ha']
    exact ⟨by simp, hMemo⟩

theorem analyze_takeChar (cfg : Config) (mode : Mode) (n : Nat)
    (zs : Option (List String)) (docs : List Doc) (hn : 1 ≤ n)
    (hgeo : ∀ p, resolvePoly cfg zs = some p → p.truthy = true →
      PoolConsistent (docs.flatMap (fun d => d.shelters))) :
    (analyze cfg mode n zs docs).blockgroups.map (fun b => b.counted_ids) =
      (docs.filter (fun d => analyzedB cfg d)).map
        (fun d => ((d.shelters.filter
          (shelterValidB mode (resolvePoly cfg zs))).take n).map
          (fun s2 => s2.objectid)) := by
  unfold analyze
  have H : ∀ ds : List Doc,
      (∀ d ∈ ds, ∀ s ∈ d.shelters, s ∈ docs.flatMap (fun d2 => d2.shelters)) →
      ∀ st : RunSt, MemoOk (resolvePoly cfg zs) (docs.flatMap (fun d2 => d2.shelters)) st →
      (ds.foldl (processDoc cfg mode n (resolvePoly cfg zs)) st).blockgroups.map
          (fun b => b.counted_ids) =
        st.blockgroups.map (fun b => b.counted_ids) ++
          (ds.filter (fun d => analyzedB cfg d)).map
            (fun d => ((d.shelters.filter
              (shelterValidB mode (resolvePoly cfg zs))).take n).map
              (fun s2 => s2.objectid)) := by
    intro ds
    induction ds with
    | nil => intro _ st _; simp
    | cons d rest ihd =>
        intro hmem st hMemo
        simp only [List.foldl_cons]
        obtain ⟨hc1, hc2⟩ := processDoc_takeChar cfg mode n _ _ hgeo hn st d
          (hmem d (by simp)) hMemo
        rw [ihd (fun d2 h2 => hmem d2 (by simp [h2])) _ hc2]
        rw [hc1]
        rw [List.filter_cons]
        by_cases hd : analyzedB cfg d = true
        · simp [hd]
        · have hd' : analyzedB cfg d = false := by
            cases hv : analyzedB cfg d with
            | true => exact absurd hv hd
            | false => rfl
          simp [hd']
  have hinitMemo : MemoOk (resolvePoly cfg zs) (docs.flatMap (fun d2 => d2.shelters))
      initSt := by
    intro p hp ht
    constructor
    · intro x hx
      simp [initSt] at hx
    · intro x hx
      simp [initSt] at hx
  have := H docs (fun d hd s hs => List.mem_flatMap.mpr ⟨d, hd, hs⟩) initSt hinitMemo
  simpa [initSt] using this

/-- C6: for every run with the spec's contract N ≥ 1 (§4.1) and with
shelter coordinates determined by object ID (as update_routes guarantees
for real data; needed for "non-excluded" to be a property of a shelter),
every analyzed block group collects exactly min N (number of reachable,
non-excluded shelters in its record) durations: at most N, and equal to N
unless fewer valid shelters exist, in which case all of them are
collected. -/
theorem analyze_collected_min_n (cfg : Config) (mode : Mode) (n : Nat)
    (zs : Option (List String)) (docs : List Doc) (hn : 1 ≤ n)
    (hcons : PoolConsistent (docs.flatMap (fun d => d.shelters))) :
    ((analyze cfg mode n zs docs).blockgroups.map (fun b => b.counted_ids.length) =
      (docs.filter (fun d => analyzedB cfg d)).map
        (fun d => min n
          ((d.shelters.filter (shelterValidB mode (resolvePoly cfg zs))).length)))
    ∧ ∀ b ∈ (analyze cfg mode n zs docs).blockgroups, b.counted_ids.length ≤ n := by
  have h := analyze_takeChar cfg mode n zs docs hn (fun _ _ _ => hcons)
  constructor
  · have hmm : (analyze cfg mode n zs docs).blockgroups.map
        (fun b => b.counted_ids.length) =
        ((analyze cfg mode n zs docs).blockgroups.map
          (fun b => b.counted_ids)).map (fun l => l.length) := by
      rw [List.map_map]
      rfl
    rw [hmm, h, List.map_map]
    refine List.map_congr_left ?_
    intro d _
    simp [List.length_take]
  · intro b hb
    have hbmem : b.counted_ids ∈ (docs.filter (fun d => analyzedB cfg d)).map
        (fun d => ((d.shelters.filter
          (shelterValidB mode (resolvePoly cfg zs))).take n).map
          (fun s2 => s2.objectid)) := by
      rw [← h]
      exact List.mem_map_of_mem _ hb
    rcases List.mem_map.mp hbmem with ⟨d, _, hd⟩
    rw [← hd]
    simp only [List.length_map, List.length_take]
    omega

/-- C6 (witness): the theorem applied to the scenario document with N = 1:
the single analyzed block group collects min 1 2 = 1 duration. -/
theorem analyze_collected_min_n_witness :
    ((analyze cfgA Mode.walk 1 none [docC2]).blockgroups.map
        (fun b => b.counted_ids.length) =
      ([docC2].filter (fun d => analyzedB cfgA d)).map
        (fun d => min 1
          ((d.shelters.filter (shelterValidB Mode.walk (resolvePoly cfgA none))).length)))
    ∧ ∀ b ∈ (analyze cfgA Mode.walk 1 none [docC2]).blockgroups,
        b.counted_ids.length ≤ 1 :=
  analyze_collected_min_n cfgA Mode.walk 1 none [docC2] (by decide) (by decide)

/-- C7: when zone exclusion is disabled (excluded_zones is not a list),
excluded_shelters stays empty, and (for the contract N ≥ 1) every
analyzed block group counts exactly the first N shelters with a valid
route of its record — every shelter with a valid route is counted,
subject only to the N-closest limit. -/
theorem analyze_no_exclusion (cfg : Config) (mode : Mode) (n : Nat)
    (docs : List Doc) (hn : 1 ≤ n) :
    (analyze cfg mode n none docs).excluded_shelters = [] ∧
    (analyze cfg mode n none docs).blockgroups.map (fun b => b.counted_ids) =
      (docs.filter (fun d => analyzedB cfg d)).map
        (fun d => ((d.shelters.filter
          (fun s => (s.routes.get mode).isSome)).take n).map
          (fun s2 => s2.objectid)) := by
  constructor
  · obtain ⟨h1, h2, h3, h4, h5, h6, h7⟩ := analyze_exclInv cfg mode n none docs
    exact (h7 rfl).1
  · have h := analyze_takeChar cfg mode n none docs hn (fun p hp _ => by
      simp [resolvePoly] at hp)
    rw [h]
    refine List.map_congr_left ?_
    intro d _
    have hfc : d.shelters.filter (shelterValidB mode (resolvePoly cfg none)) =
        d.shelters.filter (fun s => (s.routes.get mode).isSome) := by
      refine List.filter_congr ?_
      intro s _
      simp [shelterValidB, shelterExcludedB, resolvePoly]
    rw [hfc]

/-- C7 (witness): the theorem applied to the scenario run with N = 2:
nothing is excluded and the block group counts shelters 1 and 2. -/
theorem analyze_no_exclusion_witness :
    (analyze cfgA Mode.walk 2 none [docC2]).excluded_shelters = [] ∧
    (analyze cfgA Mode.walk 2 none [docC2]).blockgroups.map (fun b => b.counted_ids) =
      ([docC2].filter (fun d => analyzedB cfgA d)).map
        (fun d => ((d.shelters.filter
          (fun s => (s.routes.get Mode.walk).isSome)).take 2).map
          (fun s2 => s2.objectid)) :=
  analyze_no_exclusion cfgA Mode.walk 2 [docC2] (by decide)
